import Mathlib

/-!
Verification of the conversation-aware RAG query pipeline of the ZenForge
backend (`backend/app/services/context_window_manager.py`,
`rag_engine.py`, `llm_client.py`, `conversation_manager.py`,
`routers/chat.py`).

The Python services are shallowly embedded as pure Lean functions.
External collaborators (the tiktoken encoder, the HTTP generator call,
the SQLite-backed conversation store, the vector store) are modelled as
oracle parameters; machine integers are `Nat` (all token counts and
budgets in the source are non-negative Python ints).
-/

/-! ### Tokenizer / estimator (`context_window_manager.py`, lines 17-44)

`settings.TOKEN_ESTIMATION_RATIO` is `4.0`; `int(len(text) / 4.0)` on a
non-negative length is floor division by 4. -/

def token_estimation_ratio : Nat := 4

/-- `ContextWindowManager.estimate_tokens_fast`: fallback estimation,
one token per 4 characters, truncated. -/
def estimate_tokens_fast (text : String) : Nat :=
  text.length / token_estimation_ratio

/-- `ContextWindowManager.__init__`: `use_tiktoken` is set to whether
`tiktoken.get_encoding` succeeded, and is never written afterwards. -/
def init_use_tiktoken (tiktoken_init_ok : Bool) : Bool :=
  tiktoken_init_ok

/-- `ContextWindowManager.count_tokens`, with the tiktoken encoder
modelled as an oracle `encode` (`none` = the encoder raised on this
input).  Returns the count together with the `use_tiktoken` flag after
the call; the source never mutates the flag inside `count_tokens`, so
the flag is returned unchanged on every path. -/
def count_tokens (encode : String → Option Nat) (use_tiktoken : Bool) (text : String) :
    Nat × Bool :=
  if use_tiktoken then
    match encode text with
    | some n => (n, use_tiktoken)
    | none => (estimate_tokens_fast text, use_tiktoken)
  else (estimate_tokens_fast text, use_tiktoken)

/-! ### Data model (`models/conversation_schemas.py`)

`Message.metadata` is a structured blob never inspected by the window
manager; it is modelled as an opaque serialized string (Python compares
pydantic models field by field, and any metadata value serializes
injectively), and `timestamp` as an abstract tick.  Pydantic equality
is field-by-field equality, i.e. `DecidableEq` on the structure. -/

structure Message where
  id : String
  conversation_id : String
  role : String
  content : String
  timestamp : Nat
  token_count : Option Nat
  metadata : Option String
  deriving DecidableEq, Repr

/-- A retrieved chunk as produced by `VectorStore.query`: a dict with
`content`, `metadata.filename`, `metadata.page_number`,
`metadata.document_id` and a similarity score.  Missing dict keys are
`Option`. -/
structure RagChunk where
  content : String
  filename : Option String
  page_number : Option Nat
  document_id : Option String
  similarity_score : ℚ
  deriving DecidableEq, Repr

/-- `msg.token_count or self.count_tokens(msg.content)`: Python `or`
falls through on `None` and on the falsy cached count `0`. -/
def msg_tokens (count : String → Nat) (msg : Message) : Nat :=
  match msg.token_count with
  | some n => if n = 0 then count msg.content else n
  | none => count msg.content

/-! ### Context window manager (`context_window_manager.py`, lines 56-192) -/

/-- One block of `ContextWindowManager._build_rag_context`:
`"[Source i: {filename|Unknown}, Page {page|?}]\n{content}"`. -/
def chunk_block (i : Nat) (c : RagChunk) : String :=
  "[Source " ++ toString i ++ ": " ++ c.filename.getD "Unknown" ++ ", Page " ++
    (match c.page_number with
     | some p => toString p
     | none => "?") ++ "]\n" ++ c.content

/-- `ContextWindowManager._build_rag_context`: blocks numbered from 1 in
retrieval order, joined by `"\n\n---\n\n"`. -/
def build_rag_context (rag_chunks : List RagChunk) : String :=
  if rag_chunks = [] then ""
  else String.intercalate "\n\n---\n\n"
    (rag_chunks.enum.map (fun p => chunk_block (p.1 + 1) p.2))

/-- One line of `ContextWindowManager._format_conversation_history`. -/
def format_message (msg : Message) : String :=
  (if msg.role = "user" then "User" else "Assistant") ++ ": " ++ msg.content

/-- `ContextWindowManager._format_conversation_history`. -/
def format_conversation_history (messages : List Message) : String :=
  if messages = [] then ""
  else String.intercalate "\n\n" (messages.map format_message)

/-- The `for msg in reversed(messages)` loop of
`ContextWindowManager._select_messages_window`, lines 138-151: `l` is
the unprocessed part of the reversed history, `selected` and
`token_count` are the accumulators, `first` is `messages[0]`.  On
overflow the anchor check runs only when the suffix selected so far is
non-empty and does not already contain `messages[0]` (Python `in` is
pydantic field equality), then the loop breaks. -/
def select_loop (tc : Message → Nat) (first : Message) (available_tokens : Nat) :
    List Message → List Message → Nat → List Message × Nat
  | [], selected, token_count => (selected, token_count)
  | msg :: rest, selected, token_count =>
    let msg_toks := tc msg
    if available_tokens < token_count + msg_toks then
      if selected ≠ [] ∧ first ∉ selected then
        let first_toks := tc first
        if token_count + first_toks ≤ available_tokens then
          (first :: selected, token_count + first_toks)
        else (selected, token_count)
      else (selected, token_count)
    else select_loop tc first available_tokens rest (msg :: selected) (token_count + msg_toks)

/-- `ContextWindowManager._select_messages_window` (lines 118-158);
`tc` is `msg.token_count or count_tokens(msg.content)` per message. -/
def select_messages_window (tc : Message → Nat) (messages : List Message)
    (available_tokens : Nat) : List Message × Nat :=
  match messages with
  | [] => ([], 0)
  | first :: rest => select_loop tc first available_tokens (first :: rest).reverse [] 0

/-- `settings.MAX_CONTEXT_TOKENS`. -/
def max_context_tokens_setting : Nat := 3000

/-- The dict returned by `ContextWindowManager.build_context_window`. -/
structure ContextWindow where
  system_prompt : String
  conversation_history : String
  rag_context : String
  tokens_used : Nat
  messages_included : Nat
  truncated : Bool
  tokens_system : Nat
  tokens_rag : Nat
  tokens_history : Nat
  deriving DecidableEq, Repr

/-- `ContextWindowManager.build_context_window` (lines 56-116).
`max_tokens = max_tokens or self.max_context_tokens`: `None` and the
falsy `0` both select the 3000-token default.  `available_tokens =
max_tokens - reserved_tokens` is clamped up to the 500-token floor when
it falls below 500 (Python int subtraction may go negative before the
clamp; in `Nat` the clamp condition `max_tokens - reserved < 500` is
exactly `max_tokens < reserved + 500`). -/
def build_context_window (count : String → Nat) (conversation_history : List Message)
    (rag_chunks : List RagChunk) (system_prompt : String) (max_tokens : Option Nat) :
    ContextWindow :=
  let mt := match max_tokens with
    | none => max_context_tokens_setting
    | some b => if b = 0 then max_context_tokens_setting else b
  let system_tokens := count system_prompt
  let rag_context := build_rag_context rag_chunks
  let rag_tokens := count rag_context
  let reserved_tokens := system_tokens + rag_tokens
  let available_tokens := if mt < reserved_tokens + 500 then 500 else mt - reserved_tokens
  let sel := select_messages_window (msg_tokens count) conversation_history available_tokens
  let history_text := format_conversation_history sel.1
  { system_prompt := system_prompt
    conversation_history := history_text
    rag_context := rag_context
    tokens_used := reserved_tokens + sel.2
    messages_included := sel.1.length
    truncated := decide (sel.1.length < conversation_history.length)
    tokens_system := system_tokens
    tokens_rag := rag_tokens
    tokens_history := sel.2 }

/-! ### Python string primitives used by `llm_client.py`

`str.find`, slicing with a possibly negative stop index, and
`str.strip`, embedded over `List Char` (Python indexes strings by code
point, as does `String.toList`). -/

/-- Whether `needle` occurs in `hay` starting at position `i`. -/
def matches_at (hay needle : List Char) (i : Nat) : Bool :=
  (hay.drop i).take needle.length = needle

/-- Python `hay.find(needle, start)`: the least index `i ≥ start` where
`needle` occurs, else `-1`. -/
def py_find (hay needle : List Char) (start : Nat) : Int :=
  match ((List.range (hay.length + 1)).filter
      (fun i => decide (start ≤ i) && matches_at hay needle i)).head? with
  | some i => (i : Int)
  | none => -1

/-- Python `s[a:b]` for `a ≥ 0` and an arbitrary (possibly negative)
stop index `b`: a negative `b` counts from the end, clamped at 0. -/
def py_slice (s : List Char) (a : Nat) (b : Int) : List Char :=
  let stop := if b < 0 then (s.length + b).toNat else min b.toNat s.length
  (s.take stop).drop a

/-- The whitespace set of Python `str.strip()` (ASCII part). -/
def is_py_space (c : Char) : Bool :=
  c = ' ' || c = '\t' || c = '\n' || c = '\x0d' || c = '\x0b' || c = '\x0c'

/-- Python `s.strip()`. -/
def py_strip (s : List Char) : List Char :=
  ((s.dropWhile is_py_space).reverse.dropWhile is_py_space).reverse

/-! ### Generator client (`llm_client.py`) -/

/-- The opening fence scanned for by `generate_with_context`
(`"```mermaid"`, 10 characters). -/
def mermaid_fence : List Char := "```mermaid".toList

/-- The closing fence (`"```"`). -/
def closing_fence : List Char := "```".toList

/-- Diagram extraction in `OllamaClient.generate_with_context`, lines
95-103: if `"```mermaid"` occurs, `start = find("```mermaid") + 10`,
`end = find("```", start)` (which is `-1` when no closing fence
follows), and the diagram is `response[start:end].strip()`.  The
`try/except` around it can never fire (`find` and slicing do not
raise), so the result is `none` exactly when the opening fence is
absent. -/
def extract_mermaid (response : String) : Option String :=
  let cs := response.toList
  let fence_idx := py_find cs mermaid_fence 0
  if fence_idx = -1 then none
  else
    let start := (fence_idx + 10).toNat
    let stop := py_find cs closing_fence start
    some (String.mk (py_strip (py_slice cs start stop)))

/-- The triple-quoted system prompt built inside
`OllamaClient.generate_with_context`, lines 60-78. -/
def gwc_system_prompt : String :=
  "You are Guru-Agent, an empathetic AI learning companion. Your role is to:\n1. Help students understand concepts deeply, not just provide answers\n2. Use the Socratic method when appropriate\n3. Break down complex topics into digestible steps\n4. Encourage critical thinking\n\nWhen explaining processes, workflows, or hierarchical concepts, YOU MUST include a Mermaid.js diagram.\nFormat: End your response with:\n\n```mermaid\n[diagram code here]\n```\n\nUse appropriate diagram types:\n- flowchart TD/LR for processes\n- graph for relationships\n- classDiagram for structures\n- sequenceDiagram for interactions\n"

/-- `OllamaClient.generate_with_context` (lines 48-108).  Its parameter
list is `(query, context_chunks, generate_diagram)`; the body joins the
chunks with `"\n\n---\n\n"`, builds the user prompt, calls
`self.generate` — modelled by the oracle `gen : prompt → system_prompt
→ completion-or-raised-error` (`OllamaClient.generate` re-raises every
`httpx.HTTPError`, timeouts included, as `Exception`) — and extracts
the diagram from the completion.  `generate_diagram` is accepted but
never read by the body. -/
def generate_with_context (gen : String → String → Except String String)
    (query : String) (context_chunks : List String) (generate_diagram : Bool) :
    Except String (String × Option String) :=
  let context := String.intercalate "\n\n---\n\n" context_chunks
  let user_prompt := "Context from study materials:\n" ++ context ++
    "\n\nStudent Question: " ++ query ++
    "\n\nProvide a clear, educational explanation. If this involves a process, workflow, or structure, include a Mermaid diagram at the end."
  match gen user_prompt gwc_system_prompt with
  | Except.error e => Except.error e
  | Except.ok response => Except.ok (response, extract_mermaid response)

/-- The keyword parameters accepted by
`OllamaClient.generate_with_context` (`llm_client.py`, lines 48-53),
besides `self`. -/
def generate_with_context_params : List String :=
  ["query", "context_chunks", "generate_diagram"]

/-- The keyword arguments passed at the call site
`rag_engine.py`, lines 95-100. -/
def rag_engine_generate_kwargs : List String :=
  ["query", "context_chunks", "conversation_history", "generate_diagram"]

/-- Whether the call at `rag_engine.py:95` binds: Python raises
`TypeError` when a keyword argument is not among the callee parameters. -/
def rag_gen_call_ok : Bool :=
  rag_engine_generate_kwargs.all (fun k => generate_with_context_params.contains k)

/-- The message of the `TypeError` Python raises at `rag_engine.py:95`. -/
def gen_call_type_error : String :=
  "TypeError: generate_with_context got an unexpected keyword argument conversation_history"

/-! ### Query orchestrator (`rag_engine.py`) and chat router
(`routers/chat.py`)

External collaborators are an oracle environment `Env`; the observable
store writes of one request are collected as an `Effect` list. -/

/-- A store write performed during one request: a message append
(`ConversationManager.add_message`), a document link
(`ConversationManager.link_document`), or a conversation creation
(`ConversationManager.create_conversation`, called from the chat
router). -/
inductive Effect where
  | addMsg (conversation_id role content : String)
      (token_count : Option Nat) (with_metadata : Bool)
  | linkDoc (conversation_id document_id : String)
  | createConversation (conversation_id : String)
  deriving DecidableEq, Repr

/-- The conversation id a store write is addressed to. -/
def Effect.conversation_of : Effect → String
  | Effect.addMsg cid _ _ _ _ => cid
  | Effect.linkDoc cid _ => cid
  | Effect.createConversation cid => cid

/-- The response model `ChatResponse` (`models/schemas.py`); the
`timestamp` field (`datetime.now()`) is wall-clock and omitted. -/
structure SourceChunk where
  content : String
  document_name : String
  page_number : Option Nat
  similarity_score : ℚ
  deriving DecidableEq, Repr

structure ChatResponse where
  response : String
  sources : List SourceChunk
  mermaid_diagram : Option String
  conversation_id : String
  deriving DecidableEq, Repr

/-- The request model `ChatRequest` (`models/schemas.py`). -/
structure ChatRequest where
  query : String
  conversation_id : Option String
  include_sources : Bool
  generate_diagram : Bool
  deriving DecidableEq, Repr

/-- Oracle outcomes of the external collaborators for one request:
`uuid.uuid4()`, `ConversationManager.create_conversation` /
`get_conversation` / `add_message`, `VectorStore.query` (already
threshold-filtered), `OllamaClient.generate`, and the token counter
`ContextWindowManager.count_tokens` in its current mode. -/
structure Env where
  new_uuid : String
  create_conv : Except String String
  load_conv : Except String (Option (List Message))
  retrieved : List RagChunk
  gen : String → String → Except String String
  add_user : Except String Unit
  add_assistant : Except String Unit
  count_fn : String → Nat

/-- `rag_engine.py` lines 39-42: `if not conversation_id:` — `None` and
the empty string are falsy — `conversation_id = str(uuid.uuid4())`.
No store call is made here. -/
def resolve_conversation_id (fresh : String) : Option String → String
  | none => fresh
  | some s => if s.isEmpty then fresh else s

/-- `RAGEngine._get_system_prompt` (`rag_engine.py`, lines 163-178). -/
def rag_system_prompt : String :=
  "You are Guru-Agent, an empathetic AI learning companion designed to help students learn effectively.\n\nYour approach:\n1. Use the Socratic method - guide students to discover answers through thoughtful questions\n2. Provide clear, concise explanations tailored to the student\x27s level\n3. Use examples and analogies to clarify complex concepts\n4. Encourage critical thinking and active learning\n5. When appropriate, generate Mermaid diagrams to visualize concepts\n\nRemember:\n- Be patient and supportive\n- Acknowledge when you don\x27t know something\n- Use the provided context from study materials\n- Consider the conversation history to maintain context"

/-- The canned no-evidence reply (`rag_engine.py`, line 59). -/
def insufficient_knowledge_response : String :=
  "I don\x27t have enough information in my knowledge base to answer that question. Please upload relevant study materials first."

/-- `rag_engine.py` lines 44-52: history is loaded best-effort; a store
exception or a missing conversation both leave it empty. -/
def loaded_history (env : Env) : List Message :=
  match env.load_conv with
  | Except.ok (some msgs) => msgs
  | Except.ok none => []
  | Except.error _ => []

/-- The generation step at `rag_engine.py:95`: the call
`generate_with_context(query=..., context_chunks=...,
conversation_history=..., generate_diagram=...)`.  Python binds the
keyword arguments first; `conversation_history` is not a parameter of
`OllamaClient.generate_with_context`, so the call raises `TypeError`
before the generator body runs. -/
def gen_step (gen : String → String → Except String String) (query : String)
    (context_chunks : List String) (conversation_history : String)
    (generate_diagram : Bool) : Except String (String × Option String) :=
  if rag_gen_call_ok then generate_with_context gen query context_chunks generate_diagram
  else Except.error gen_call_type_error

/-- `round(similarity_score, 3)` (`rag_engine.py:113`), approximated on
`ℚ` (the source rounds a float; half-way behavior is out of scope). -/
def py_round3 (q : ℚ) : ℚ := (round (q * 1000) : ℤ) / 1000

/-- One entry of the `sources` list (`rag_engine.py`, lines 108-114):
content preview truncated to 200 characters plus `"..."`, document
name defaulting to `"Unknown"`. -/
def mk_source_chunk (c : RagChunk) : SourceChunk :=
  { content := c.content.take 200 ++ "..."
    document_name := c.filename.getD "Unknown"
    page_number := c.page_number
    similarity_score := py_round3 c.similarity_score }

/-- The document links attempted at `rag_engine.py`, lines 140-146:
one per retrieved chunk whose metadata has a truthy `document_id`. -/
def link_effects (cid : String) (retrieved : List RagChunk) : List Effect :=
  retrieved.filterMap (fun c =>
    match c.document_id with
    | some d => if d.isEmpty then none else some (Effect.linkDoc cid d)
    | none => none)

/-- `RAGEngine.query` (`rag_engine.py`, lines 26-161): resolve the
conversation id; load history (failures and a missing conversation
both give empty history); retrieve; short-circuit with the canned
response when nothing was retrieved, appending the user and assistant
turns best-effort (an exception in either append is caught and the
canned response is still returned); otherwise build the context
window, run the generation step (uncaught — its exception propagates
and nothing has been persisted), then build sources, persist the turn
best-effort and link documents, and return the response. -/
def rag_query (env : Env) (user_query : String) (conversation_id : Option String)
    (include_sources generate_diagram : Bool) :
    Except String ChatResponse × List Effect :=
  let cid := resolve_conversation_id env.new_uuid conversation_id
  let conversation_history := loaded_history env
  let retrieved_chunks := env.retrieved
  if retrieved_chunks.isEmpty then
    let user_eff := Effect.addMsg cid "user" user_query none false
    match env.add_user with
    | Except.error _ =>
      (Except.ok { response := insufficient_knowledge_response, sources := [],
                   mermaid_diagram := none, conversation_id := cid },
       [user_eff])
    | Except.ok _ =>
      (Except.ok { response := insufficient_knowledge_response, sources := [],
                   mermaid_diagram := none, conversation_id := cid },
       [user_eff, Effect.addMsg cid "assistant" insufficient_knowledge_response none false])
  else
    let context_window := build_context_window env.count_fn conversation_history
      retrieved_chunks rag_system_prompt none
    let context_texts := retrieved_chunks.map (fun c => c.content)
    match gen_step env.gen user_query context_texts
        context_window.conversation_history generate_diagram with
    | Except.error e => (Except.error e, [])
    | Except.ok (response_text, mermaid_diagram) =>
      let sources := if include_sources then retrieved_chunks.map mk_source_chunk else []
      let user_eff := Effect.addMsg cid "user" user_query (some (env.count_fn user_query)) false
      let asst_eff := Effect.addMsg cid "assistant" response_text
        (some (env.count_fn response_text)) true
      let effs := match env.add_user with
        | Except.error _ => [user_eff]
        | Except.ok _ =>
          match env.add_assistant with
          | Except.error _ => [user_eff, asst_eff]
          | Except.ok _ => user_eff :: asst_eff :: link_effects cid retrieved_chunks
      (Except.ok { response := response_text, sources := sources,
                   mermaid_diagram := mermaid_diagram, conversation_id := cid },
       effs)

/-- `HTTPException(500, f"Query processing failed: {e}")`: the chat
router wraps every exception escaping the handler body. -/
def wrap_500 : Except String ChatResponse → Except String ChatResponse
  | Except.error e => Except.error ("Query processing failed: " ++ e)
  | Except.ok r => Except.ok r

/-- Python truthiness of the optional `conversation_id` field. -/
def is_absent : Option String → Bool
  | none => true
  | some s => s.isEmpty

/-- `chat_query` (`routers/chat.py`, lines 13-38): when the request has
no (truthy) `conversation_id`, create a new conversation in the store
first and use its id; then run the RAG engine; any exception — from
creation or from the engine — surfaces as a 500 service error. -/
def chat_query (env : Env) (req : ChatRequest) :
    Except String ChatResponse × List Effect :=
  if is_absent req.conversation_id then
    match env.create_conv with
    | Except.error e => (Except.error ("Query processing failed: " ++ e), [])
    | Except.ok new_cid =>
      let r := rag_query env req.query (some new_cid) req.include_sources req.generate_diagram
      (wrap_500 r.1, Effect.createConversation new_cid :: r.2)
  else
    let r := rag_query env req.query req.conversation_id req.include_sources req.generate_diagram
    (wrap_500 r.1, r.2)

/-! ### Concrete fixtures used by witnesses and counterexamples -/

/-- A history message with a cached token count of 500. -/
def msg_c2 : Message :=
  { id := "m1", conversation_id := "c1", role := "user", content := "x",
    timestamp := 0, token_count := some 500, metadata := none }

/-- A first history message costing 100 tokens. -/
def msg_c3a : Message :=
  { id := "m1", conversation_id := "c1", role := "user", content := "first question",
    timestamp := 0, token_count := some 100, metadata := none }

/-- A most-recent history message costing 600 tokens. -/
def msg_c3b : Message :=
  { id := "m2", conversation_id := "c1", role := "assistant", content := "long reply",
    timestamp := 1, token_count := some 600, metadata := none }

/-- A four-message history on which the anchor heuristic fires: the two
most recent messages fit, the second is oversized, and the first fits
the leftover budget. -/
def msgs_anchor : List Message :=
  [{ id := "a0", conversation_id := "c1", role := "user", content := "opening",
     timestamp := 0, token_count := some 30, metadata := none },
   { id := "a1", conversation_id := "c1", role := "assistant", content := "huge",
     timestamp := 1, token_count := some 200, metadata := none },
   { id := "a2", conversation_id := "c1", role := "user", content := "recent",
     timestamp := 2, token_count := some 80, metadata := none },
   { id := "a3", conversation_id := "c1", role := "assistant", content := "latest",
     timestamp := 3, token_count := some 80, metadata := none }]

/-- A tiktoken oracle that raises on the input `"x"` and counts 999
tokens on every other input. -/
def enc_fail_on_x : String → Option Nat :=
  fun t => if t = "x" then none else some 999

/-- A completion with an opening mermaid fence and no closing fence. -/
def resp_c5 : String := "```mermaid\ngraph TD;"

/-- A retrieved chunk above the similarity threshold. -/
def chunk_1 : RagChunk :=
  { content := "Recursion is when a function calls itself.",
    filename := some "notes.pdf", page_number := some 3,
    document_id := some "doc-1", similarity_score := (4 : ℚ) / 5 }

/-- Environment for the generation path: one retrieved chunk, a healthy
store and a generator that would answer successfully. -/
def env_c1 : Env :=
  { new_uuid := "uuid-1", create_conv := Except.ok "conv-new",
    load_conv := Except.ok none, retrieved := [chunk_1],
    gen := fun _ _ => Except.ok "The answer.",
    add_user := Except.ok (), add_assistant := Except.ok (),
    count_fn := estimate_tokens_fast }

/-- Environment for the generator-failure path. -/
def env_c8 : Env :=
  { new_uuid := "uuid-8", create_conv := Except.ok "conv-8",
    load_conv := Except.ok none, retrieved := [chunk_1],
    gen := fun _ _ => Except.error "Ollama API error: timeout",
    add_user := Except.ok (), add_assistant := Except.ok (),
    count_fn := estimate_tokens_fast }

/-- Environment for the short-circuit path: nothing retrieved and a
store whose appends fail. -/
def env_c7 : Env :=
  { new_uuid := "uuid-7", create_conv := Except.ok "conv-7",
    load_conv := Except.ok (some []), retrieved := [],
    gen := fun _ _ => Except.ok "unused",
    add_user := Except.error "db unreachable",
    add_assistant := Except.error "db unreachable",
    count_fn := estimate_tokens_fast }

/-- Environment for conversation auto-creation: the store creates
`"conv-6"`, nothing is retrieved, appends succeed. -/
def env_c6 : Env :=
  { new_uuid := "uuid-6", create_conv := Except.ok "conv-6",
    load_conv := Except.ok none, retrieved := [],
    gen := fun _ _ => Except.ok "unused",
    add_user := Except.ok (), add_assistant := Except.ok (),
    count_fn := estimate_tokens_fast }

/-- A request without a conversation id. -/
def req_c6 : ChatRequest :=
  { query := "What is a stack?", conversation_id := none,
    include_sources := true, generate_diagram := true }

/-! ### Helper lemmas about the sliding-window selection loop -/

/-- The loop never accumulates more than the available budget: every
message and the anchor are added only after a fit check. -/
theorem select_loop_tokens_le (tc : Message → Nat) (first : Message) (avail : Nat) :
    ∀ (l selected : List Message) (tok : Nat), tok ≤ avail →
      (select_loop tc first avail l selected tok).2 ≤ avail := by
  intro l
  induction l with
  | nil => intro sel tok h; simpa [select_loop] using h
  | cons m rest ih =>
    intro sel tok h
    simp only [select_loop]
    by_cases h1 : avail < tok + tc m
    · rw [if_pos h1]
      by_cases h2 : sel ≠ [] ∧ first ∉ sel
      · rw [if_pos h2]
        by_cases h3 : tok + tc first ≤ avail
        · rw [if_pos h3]; exact h3
        · rw [if_neg h3]; exact h
      · rw [if_neg h2]; exact h
    · rw [if_neg h1]
      exact ih (m :: sel) (tok + tc m) (by omega)

/-- Shape of the loop result: it consumes some front part `l1` of the
remaining reversed history (so `l1.reverse ++ selected` extends the
accumulator), and, when the anchor fired, the result additionally has
`first` in front, `first` was not already selected, the selection was
non-empty, and the loop broke early (`l2 ≠ []`). -/
theorem select_loop_structure (tc : Message → Nat) (first : Message) (avail : Nat) :
    ∀ (l selected : List Message) (tok : Nat),
      ∃ l1 l2 : List Message, l = l1 ++ l2 ∧
        ((select_loop tc first avail l selected tok).1 = l1.reverse ++ selected ∨
         ((select_loop tc first avail l selected tok).1 = first :: (l1.reverse ++ selected) ∧
          first ∉ l1.reverse ++ selected ∧ l1.reverse ++ selected ≠ [] ∧ l2 ≠ [])) := by
  intro l
  induction l with
  | nil =>
    intro sel tok
    exact ⟨[], [], rfl, Or.inl (by simp [select_loop])⟩
  | cons m rest ih =>
    intro sel tok
    by_cases h1 : avail < tok + tc m
    · by_cases h2 : sel ≠ [] ∧ first ∉ sel
      · by_cases h3 : tok + tc first ≤ avail
        · refine ⟨[], m :: rest, rfl, Or.inr ?_⟩
          simp only [select_loop, if_pos h1, if_pos h2, if_pos h3]
          exact ⟨rfl, by simpa using h2.2, by simpa using h2.1, by simp⟩
        · refine ⟨[], m :: rest, rfl, Or.inl ?_⟩
          simp only [select_loop, if_pos h1, if_pos h2, if_neg h3]
          simp
      · refine ⟨[], m :: rest, rfl, Or.inl ?_⟩
        simp only [select_loop, if_pos h1, if_neg h2]
        simp
    · obtain ⟨l1, l2, heq, hcase⟩ := ih (m :: sel) (tok + tc m)
      have hstep : select_loop tc first avail (m :: rest) sel tok
          = select_loop tc first avail rest (m :: sel) (tok + tc m) := by
        simp only [select_loop, if_neg h1]
      have hra : (m :: l1).reverse ++ sel = l1.reverse ++ (m :: sel) := by simp
      refine ⟨m :: l1, l2, by rw [List.cons_append, heq], ?_⟩
      rw [hstep, hra]
      exact hcase

/-- Shape of the `_select_messages_window` output: a suffix `sfx` of the
history, optionally preceded by the first message of the history when the
anchor fired — in which case that first message was not in the suffix
and the scan had broken early (`pre ≠ []`). -/
theorem select_window_structure (tc : Message → Nat) (messages : List Message)
    (avail : Nat) :
    ∃ pre sfx : List Message, messages = pre ++ sfx ∧
      ((select_messages_window tc messages avail).1 = sfx ∨
       ((select_messages_window tc messages avail).1 = messages.take 1 ++ sfx ∧
        (∀ x ∈ messages.take 1, x ∉ sfx) ∧ pre ≠ [])) := by
  match messages with
  | [] => exact ⟨[], [], rfl, Or.inl (by simp [select_messages_window])⟩
  | first :: rest =>
    obtain ⟨l1, l2, heq, hcase⟩ :=
      select_loop_structure tc first avail ((first :: rest).reverse) [] 0
    have hmsgs : first :: rest = l2.reverse ++ l1.reverse := by
      have h := congrArg List.reverse heq
      simpa [List.reverse_append] using h
    have hsel : select_messages_window tc (first :: rest) avail
        = select_loop tc first avail ((first :: rest).reverse) [] 0 := rfl
    refine ⟨l2.reverse, l1.reverse, hmsgs, ?_⟩
    rcases hcase with h | ⟨ha, hb, hc, hd⟩
    · left; rw [hsel, h]; simp
    · right
      refine ⟨by rw [hsel, ha]; simp, ?_, by simpa using hd⟩
      intro x hx
      have hx1 : x = first := by simpa using hx
      subst hx1
      intro hmem
      exact hb (by simpa using hmem)

/-- The history tokens consumed by the selection never exceed the
available budget. -/
theorem select_window_tokens_le (tc : Message → Nat) (messages : List Message)
    (avail : Nat) : (select_messages_window tc messages avail).2 ≤ avail := by
  match messages with
  | [] => simp [select_messages_window]
  | m :: rest =>
    exact select_loop_tokens_le tc m avail ((m :: rest).reverse) [] 0 (Nat.zero_le _)

/-! ### Claim theorems: context window manager -/

/-- Equation for `tokens_used` with an explicit non-zero budget. -/
theorem build_context_window_tokens_used (count : String → Nat)
    (history : List Message) (chunks : List RagChunk) (P : String) (B : Nat)
    (hB : B ≠ 0) :
    (build_context_window count history chunks P (some B)).tokens_used
      = count P + count (build_rag_context chunks) +
        (select_messages_window (msg_tokens count) history
          (if B < count P + count (build_rag_context chunks) + 500 then 500
           else B - (count P + count (build_rag_context chunks)))).2 := by
  simp only [build_context_window, if_neg hB]

/-- Claim C2 (amended): for every history, evidence list, system prompt
`P` and non-zero requested budget `B`, `tokens_used` is at most
`max B (system_tokens + rag_tokens + floor_reserve)` — the budget can be
exceeded, but only when fewer than the 500-token floor would remain for
history after the system prompt and the evidence are accounted for; and
whenever the floor does fit inside `B`, `tokens_used ≤ B`. -/
theorem build_context_window_budget_bound (count : String → Nat)
    (history : List Message) (chunks : List RagChunk) (P : String) (B : Nat)
    (hB : B ≠ 0) :
    (build_context_window count history chunks P (some B)).tokens_used
        ≤ max B (count P + count (build_rag_context chunks) + 500) ∧
      (count P + count (build_rag_context chunks) + 500 ≤ B →
        (build_context_window count history chunks P (some B)).tokens_used ≤ B) := by
  rw [build_context_window_tokens_used count history chunks P B hB]
  constructor
  · by_cases hc : B < count P + count (build_rag_context chunks) + 500
    · rw [if_pos hc]
      have h := select_window_tokens_le (msg_tokens count) history 500
      have h2 : count P + count (build_rag_context chunks) + 500
          ≤ max B (count P + count (build_rag_context chunks) + 500) :=
        le_max_right _ _
      omega
    · rw [if_neg hc]
      have h := select_window_tokens_le (msg_tokens count) history
        (B - (count P + count (build_rag_context chunks)))
      have h2 : B ≤ max B (count P + count (build_rag_context chunks) + 500) :=
        le_max_left _ _
      omega
  · intro hfits
    rw [if_neg (by omega)]
    have h := select_window_tokens_le (msg_tokens count) history
      (B - (count P + count (build_rag_context chunks)))
    omega

/-- Witness for the amended C2 bound at a concrete input. -/
theorem build_context_window_budget_bound_witness :
    (build_context_window estimate_tokens_fast [msg_c2] [] "hello" (some 2000)).tokens_used
        ≤ max 2000 (estimate_tokens_fast "hello" +
            estimate_tokens_fast (build_rag_context []) + 500) ∧
      (estimate_tokens_fast "hello" + estimate_tokens_fast (build_rag_context []) + 500 ≤ 2000 →
        (build_context_window estimate_tokens_fast [msg_c2] [] "hello" (some 2000)).tokens_used
          ≤ 2000) :=
  build_context_window_budget_bound estimate_tokens_fast [msg_c2] [] "hello" 2000 (by decide)

/-- Counterexample to C2 as stated: with an 8-character system prompt
(2 tokens), no evidence, one 500-token history message and budget 501,
the floor clamp admits 500 history tokens and `tokens_used = 502`
exceeds `max(requested_budget, floor_reserve) = 501`. -/
theorem build_context_window_exceeds_budget_counterexample :
    ¬ ((build_context_window estimate_tokens_fast [msg_c2] [] "aaaaaaaa"
          (some 501)).tokens_used ≤ max 501 500) := by decide

/-- Claim C3 (amended): when the most recent message alone does not fit
the available budget, the scan breaks with an empty suffix and no
anchor check is performed — the selection is empty (zero messages, zero
tokens) regardless of whether the first message of the history would
fit. -/
theorem select_window_empty_suffix_no_anchor (tc : Message → Nat)
    (front : List Message) (last : Message) (avail : Nat)
    (h : avail < tc last) :
    select_messages_window tc (front ++ [last]) avail = ([], 0) := by
  match front with
  | [] =>
    show select_loop tc last avail ([last].reverse) [] 0 = ([], 0)
    simp [select_loop, h]
  | f :: fs =>
    show select_loop tc f avail ((f :: (fs ++ [last])).reverse) [] 0 = ([], 0)
    have hrev : (f :: (fs ++ [last])).reverse = last :: (fs.reverse ++ [f]) := by simp
    rw [hrev]
    simp [select_loop, h]

/-- Witness for the amended C3 behavior: the 600-token most recent
message does not fit the 500-token budget, and the selection is empty
although the 100-token first message would fit. -/
theorem select_window_empty_suffix_no_anchor_witness :
    500 < msg_tokens estimate_tokens_fast msg_c3b ∧
    select_messages_window (msg_tokens estimate_tokens_fast)
      ([msg_c3a] ++ [msg_c3b]) 500 = ([], 0) :=
  ⟨by decide, select_window_empty_suffix_no_anchor (msg_tokens estimate_tokens_fast)
    [msg_c3a] msg_c3b 500 (by decide)⟩

/-- Counterexample to C3 as stated: the first message costs 100 tokens
and fits the full 500-token budget, yet after the 600-token most
recent message fails to fit, the window manager returns the empty
selection — no anchor check is made. -/
theorem select_window_empty_suffix_counterexample :
    msg_tokens estimate_tokens_fast msg_c3a ≤ 500 ∧
    select_messages_window (msg_tokens estimate_tokens_fast)
      [msg_c3a, msg_c3b] 500 = ([], 0) := by decide

/-- Claim C9: the selected messages are a contiguous suffix of the
history, optionally prefixed by the first message of the history, and the
selection is a sublist of the history (chronological order is
preserved). -/
theorem select_window_is_anchored_suffix (tc : Message → Nat)
    (messages : List Message) (avail : Nat) :
    ∃ pre sfx : List Message, messages = pre ++ sfx ∧
      ((select_messages_window tc messages avail).1 = sfx ∨
       (select_messages_window tc messages avail).1 = messages.take 1 ++ sfx) ∧
      (select_messages_window tc messages avail).1.Sublist messages := by
  obtain ⟨pre, sfx, heq, hcase⟩ := select_window_structure tc messages avail
  refine ⟨pre, sfx, heq, ?_, ?_⟩
  · rcases hcase with h | ⟨h, _, _⟩
    · exact Or.inl h
    · exact Or.inr h
  · rcases hcase with h | ⟨h, hnm, hpre⟩
    · rw [h, heq]
      exact List.sublist_append_right pre sfx
    · match pre, hpre with
      | [], hpre => exact absurd rfl hpre
      | p :: ps, _ =>
        have ht : messages.take 1 = [p] := by rw [heq]; rfl
        rw [h, ht, heq]
        exact List.Sublist.cons₂ p (List.sublist_append_right ps sfx)

/-- Witness for C9 at a history where the anchor fires. -/
theorem select_window_is_anchored_suffix_witness :
    ∃ pre sfx : List Message, msgs_anchor = pre ++ sfx ∧
      ((select_messages_window (msg_tokens estimate_tokens_fast) msgs_anchor 200).1 = sfx ∨
       (select_messages_window (msg_tokens estimate_tokens_fast) msgs_anchor 200).1
         = msgs_anchor.take 1 ++ sfx) ∧
      (select_messages_window (msg_tokens estimate_tokens_fast) msgs_anchor 200).1.Sublist
        msgs_anchor :=
  select_window_is_anchored_suffix (msg_tokens estimate_tokens_fast) msgs_anchor 200

/-- Claim C10: the anchor step never introduces a duplicate — either no
anchor was prepended and the selection is a plain suffix, or the first
message was prepended to a suffix not containing it, so it occurs
exactly once in the selection. -/
theorem select_window_anchor_not_duplicated (tc : Message → Nat)
    (messages : List Message) (avail : Nat) :
    (∃ pre sfx : List Message, messages = pre ++ sfx ∧
       (select_messages_window tc messages avail).1 = sfx) ∨
    (∃ pre sfx : List Message, messages = pre ++ sfx ∧
       (select_messages_window tc messages avail).1 = messages.take 1 ++ sfx ∧
       ∀ x ∈ messages.take 1, (select_messages_window tc messages avail).1.count x = 1) := by
  obtain ⟨pre, sfx, heq, hcase⟩ := select_window_structure tc messages avail
  rcases hcase with h | ⟨h, hnm, hpre⟩
  · exact Or.inl ⟨pre, sfx, heq, h⟩
  · refine Or.inr ⟨pre, sfx, heq, h, ?_⟩
    intro x hx
    match pre, hpre with
    | [], hpre => exact absurd rfl hpre
    | p :: ps, _ =>
      have ht : messages.take 1 = [p] := by rw [heq]; rfl
      have hx1 : x = p := by rw [ht] at hx; simpa using hx
      subst hx1
      have hnot : x ∉ sfx := hnm x hx
      rw [h, ht]
      simp [List.count_append, List.count_eq_zero.mpr hnot]

/-- Witness for C10 at a history where the anchor fires. -/
theorem select_window_anchor_not_duplicated_witness :
    (∃ pre sfx : List Message, msgs_anchor = pre ++ sfx ∧
       (select_messages_window (msg_tokens estimate_tokens_fast) msgs_anchor 200).1 = sfx) ∨
    (∃ pre sfx : List Message, msgs_anchor = pre ++ sfx ∧
       (select_messages_window (msg_tokens estimate_tokens_fast) msgs_anchor 200).1
         = msgs_anchor.take 1 ++ sfx ∧
       ∀ x ∈ msgs_anchor.take 1,
         (select_messages_window (msg_tokens estimate_tokens_fast) msgs_anchor 200).1.count x
           = 1) :=
  select_window_anchor_not_duplicated (msg_tokens estimate_tokens_fast) msgs_anchor 200

/-! ### Claim theorems: tokenizer fallback policy -/

/-- Claim C4 (amended): an initialization failure is permanent — with
`use_tiktoken = false` every call uses the character-ratio estimator
and the flag stays `false`; but a per-input encoder failure degrades
only that call: the flag stays `true`, a failing input falls back to
the estimator for that call, and an input the encoder handles is still
counted precisely on the next call. -/
theorem count_tokens_fallback_policy :
    (∀ (enc : String → Option Nat) (text : String),
        count_tokens enc false text = (estimate_tokens_fast text, false)) ∧
    (∀ (enc : String → Option Nat) (text : String), enc text = none →
        count_tokens enc true text = (estimate_tokens_fast text, true)) ∧
    (∀ (enc : String → Option Nat) (text : String) (n : Nat), enc text = some n →
        count_tokens enc true text = (n, true)) := by
  refine ⟨fun enc text => rfl, fun enc text h => ?_, fun enc text n h => ?_⟩
  · simp [count_tokens, h]
  · simp [count_tokens, h]

/-- Witness for the amended C4 policy on a concrete encoder. -/
theorem count_tokens_fallback_policy_witness :
    count_tokens enc_fail_on_x false "abcd" = (estimate_tokens_fast "abcd", false) ∧
    count_tokens enc_fail_on_x true "x" = (estimate_tokens_fast "x", true) ∧
    count_tokens enc_fail_on_x true "y" = (999, true) :=
  ⟨count_tokens_fallback_policy.1 enc_fail_on_x "abcd",
   count_tokens_fallback_policy.2.1 enc_fail_on_x "x" (by decide),
   count_tokens_fallback_policy.2.2 enc_fail_on_x "y" 999 (by decide)⟩

/-- Counterexample to C4 as stated: the encoder fails on input `"x"`
and that call falls back to the estimator, yet the very next call (on
`"y"`) returns the precise count 999, which the estimator
(`len("y") / 4 = 0`) could not produce — counting returns to the
precise tokenizer after a failure. -/
theorem count_tokens_flapping_counterexample :
    enc_fail_on_x "x" = none ∧
    count_tokens enc_fail_on_x true "x" = (estimate_tokens_fast "x", true) ∧
    count_tokens enc_fail_on_x (count_tokens enc_fail_on_x true "x").2 "y" = (999, true) ∧
    estimate_tokens_fast "y" ≠ 999 := by decide

/-! ### Claim theorems: diagram extraction -/

/-- Claim C5 (amended): when the completion contains an opening
```` ```mermaid ```` fence at index `i` but no closing fence after it,
the request still succeeds, and the diagram field is not absent: it is
`some` of the text from just past the opening fence up to — but
excluding — the final character of the completion, whitespace-stripped
(Python `find` returns `-1`, which the slice `response[start:-1]`
reads as stop-before-last). -/
theorem extract_mermaid_missing_closing_fence (resp : String) (i : Nat)
    (h1 : py_find resp.toList mermaid_fence 0 = (i : Int))
    (h2 : py_find resp.toList closing_fence (i + 10) = -1) :
    extract_mermaid resp
      = some (String.mk (py_strip
          ((resp.toList.take (resp.toList.length - 1)).drop (i + 10)))) ∧
    ∀ (q : String) (chunks : List String) (gd : Bool),
      generate_with_context (fun _ _ => Except.ok resp) q chunks gd
        = Except.ok (resp, extract_mermaid resp) := by
  constructor
  · have hne : ¬ ((i : Int) = -1) := by omega
    have hstart : ((i : Int) + 10).toNat = i + 10 := by omega
    simp only [extract_mermaid]
    rw [h1, if_neg hne, hstart, h2]
    have hstop : ((resp.toList.length : Int) + -1).toNat = resp.toList.length - 1 := by
      omega
    simp only [py_slice, if_pos (show (-1 : Int) < 0 by norm_num), hstop]
  · intro q chunks gd
    rfl

/-- Witness for the amended C5 extraction at a concrete completion. -/
theorem extract_mermaid_missing_closing_fence_witness :
    extract_mermaid resp_c5
      = some (String.mk (py_strip
          ((resp_c5.toList.take (resp_c5.toList.length - 1)).drop (0 + 10)))) ∧
    ∀ (q : String) (chunks : List String) (gd : Bool),
      generate_with_context (fun _ _ => Except.ok resp_c5) q chunks gd
        = Except.ok (resp_c5, extract_mermaid resp_c5) :=
  extract_mermaid_missing_closing_fence resp_c5 0 (by decide) (by decide)

/-- Counterexample to C5 as stated: the completion
`"```mermaid\ngraph TD;"` has the opening fence at index 0 and no
closing fence after it, yet the diagram field is `some "graph TD"`
(the slice to `-1` dropped the final `";"`), not `None`. -/
theorem extract_mermaid_counterexample :
    py_find resp_c5.toList mermaid_fence 0 = 0 ∧
    py_find resp_c5.toList closing_fence 10 = -1 ∧
    extract_mermaid resp_c5 = some "graph TD" ∧
    generate_with_context (fun _ _ => Except.ok resp_c5) "q" [] true
      = Except.ok (resp_c5, some "graph TD") :=
  ⟨by decide, by decide, by decide, by rfl⟩

/-! ### Claim theorems: query orchestrator and chat router -/

/-- The keyword arguments of the call at `rag_engine.py:95` do not all
bind to parameters of `generate_with_context`. -/
theorem rag_gen_call_ok_eq_false : rag_gen_call_ok = false := by decide

/-- Every generation step raises: the `conversation_history` keyword
argument is rejected with `TypeError` before the generator runs. -/
theorem gen_step_eq_error (gen : String → String → Except String String)
    (q : String) (chunks : List String) (hist : String) (gd : Bool) :
    gen_step gen q chunks hist gd = Except.error gen_call_type_error := by
  simp [gen_step, rag_gen_call_ok_eq_false]

/-- Every store write of `RAGEngine.query` addresses the resolved
conversation id, and every successful response carries it. -/
theorem rag_query_cid_invariant (env : Env) (q : String) (cid : Option String)
    (inc gd : Bool) :
    (∀ eff ∈ (rag_query env q cid inc gd).2,
        eff.conversation_of = resolve_conversation_id env.new_uuid cid) ∧
    (∀ resp, (rag_query env q cid inc gd).1 = Except.ok resp →
        resp.conversation_id = resolve_conversation_id env.new_uuid cid) := by
  cases h : env.retrieved.isEmpty with
  | true =>
    cases hu : env.add_user with
    | error err =>
      have hq : rag_query env q cid inc gd
          = (Except.ok { response := insufficient_knowledge_response, sources := [],
                         mermaid_diagram := none,
                         conversation_id := resolve_conversation_id env.new_uuid cid },
             [Effect.addMsg (resolve_conversation_id env.new_uuid cid) "user" q none false]) := by
        simp [rag_query, h, hu]
      rw [hq]
      constructor
      · intro eff hin
        simp only [List.mem_singleton] at hin
        subst hin
        rfl
      · intro resp hresp
        cases hresp
        rfl
    | ok u =>
      cases u
      have hq : rag_query env q cid inc gd
          = (Except.ok { response := insufficient_knowledge_response, sources := [],
                         mermaid_diagram := none,
                         conversation_id := resolve_conversation_id env.new_uuid cid },
             [Effect.addMsg (resolve_conversation_id env.new_uuid cid) "user" q none false,
              Effect.addMsg (resolve_conversation_id env.new_uuid cid) "assistant"
                insufficient_knowledge_response none false]) := by
        simp [rag_query, h, hu]
      rw [hq]
      constructor
      · intro eff hin
        simp only [List.mem_cons, List.mem_singleton, List.not_mem_nil, or_false] at hin
        rcases hin with rfl | rfl <;> rfl
      · intro resp hresp
        cases hresp
        rfl
  | false =>
    have hq : rag_query env q cid inc gd = (Except.error gen_call_type_error, []) := by
      simp [rag_query, h, gen_step_eq_error]
    rw [hq]
    constructor
    · intro eff hin
      simp at hin
    · intro resp hresp
      simp at hresp

/-- Claim C1 (evaluation at the failing input): with one retrieved
chunk and a generator that would answer `"The answer."` successfully,
`RAGEngine.query` does not invoke the generator and fails the request —
the call site passes the keyword argument `conversation_history`, which
is not among the parameters of `OllamaClient.generate_with_context`, so
Python raises `TypeError`; no completion text is used and nothing is
persisted. -/
theorem rag_query_generation_path_raises_type_error :
    rag_query env_c1 "What is recursion?" (some "conv-1") true true
      = (Except.error gen_call_type_error, []) ∧
    rag_engine_generate_kwargs.contains "conversation_history" = true ∧
    generate_with_context_params.contains "conversation_history" = false := by
  refine ⟨?_, by decide, by decide⟩
  rfl

/-- Claim C8: whenever the generation step of `RAGEngine.query` raises
(timeout, generator error, or the `TypeError` of the call itself), the
error propagates out of `query` unchanged and no store write — in
particular no user or assistant append — has been performed for this
turn. -/
theorem rag_query_generator_error_propagates (env : Env) (q : String)
    (cid : Option String) (inc gd : Bool) (e : String)
    (hret : env.retrieved.isEmpty = false)
    (hgen : gen_step env.gen q (env.retrieved.map (fun c => c.content))
        (build_context_window env.count_fn (loaded_history env) env.retrieved
          rag_system_prompt none).conversation_history gd = Except.error e) :
    (rag_query env q cid inc gd).1 = Except.error e ∧
    (rag_query env q cid inc gd).2 = [] := by
  have hq : rag_query env q cid inc gd = (Except.error e, []) := by
    simp [rag_query, hret, hgen]
  rw [hq]
  exact ⟨rfl, rfl⟩

/-- Witness for C8: one retrieved chunk, the step fails (with the
`TypeError` this snapshot always raises there), the error propagates
and the effect list is empty. -/
theorem rag_query_generator_error_propagates_witness :
    (rag_query env_c8 "What is recursion?" (some "conv-8") true true).1
        = Except.error gen_call_type_error ∧
    (rag_query env_c8 "What is recursion?" (some "conv-8") true true).2 = [] :=
  rag_query_generator_error_propagates env_c8 "What is recursion?" (some "conv-8")
    true true gen_call_type_error (by decide) (by rfl)

/-- Claim C7: when retrieval returns no chunk, `RAGEngine.query`
returns the fixed insufficient-knowledge response with empty sources
and no diagram — whatever the persistence outcomes — after attempting
to append the user message, and, when that append succeeded, the
assistant message. -/
theorem rag_query_short_circuit (env : Env) (q : String) (cid : Option String)
    (inc gd : Bool) (hret : env.retrieved = []) :
    (rag_query env q cid inc gd).1
      = Except.ok { response := insufficient_knowledge_response, sources := [],
                    mermaid_diagram := none,
                    conversation_id := resolve_conversation_id env.new_uuid cid } ∧
    Effect.addMsg (resolve_conversation_id env.new_uuid cid) "user" q none false
      ∈ (rag_query env q cid inc gd).2 ∧
    (env.add_user = Except.ok () →
      Effect.addMsg (resolve_conversation_id env.new_uuid cid) "assistant"
        insufficient_knowledge_response none false ∈ (rag_query env q cid inc gd).2) := by
  have h : env.retrieved.isEmpty = true := by rw [hret]; rfl
  cases hu : env.add_user with
  | error err =>
    have hq : rag_query env q cid inc gd
        = (Except.ok { response := insufficient_knowledge_response, sources := [],
                       mermaid_diagram := none,
                       conversation_id := resolve_conversation_id env.new_uuid cid },
           [Effect.addMsg (resolve_conversation_id env.new_uuid cid) "user" q none false]) := by
      simp [rag_query, h, hu]
    rw [hq]
    refine ⟨rfl, by simp, ?_⟩
    intro hcontr
    exact absurd hcontr (by simp)
  | ok u =>
    cases u
    have hq : rag_query env q cid inc gd
        = (Except.ok { response := insufficient_knowledge_response, sources := [],
                       mermaid_diagram := none,
                       conversation_id := resolve_conversation_id env.new_uuid cid },
           [Effect.addMsg (resolve_conversation_id env.new_uuid cid) "user" q none false,
            Effect.addMsg (resolve_conversation_id env.new_uuid cid) "assistant"
              insufficient_knowledge_response none false]) := by
      simp [rag_query, h, hu]
    rw [hq]
    exact ⟨rfl, by simp, fun _ => by simp⟩

/-- Witness for C7: nothing retrieved and a store whose appends fail —
the canned response is still returned and the user append was
attempted. -/
theorem rag_query_short_circuit_witness :
    (rag_query env_c7 "What is X?" (some "c7") true true).1
      = Except.ok { response := insufficient_knowledge_response, sources := [],
                    mermaid_diagram := none,
                    conversation_id := resolve_conversation_id env_c7.new_uuid (some "c7") } ∧
    Effect.addMsg (resolve_conversation_id env_c7.new_uuid (some "c7")) "user"
        "What is X?" none false
      ∈ (rag_query env_c7 "What is X?" (some "c7") true true).2 ∧
    (env_c7.add_user = Except.ok () →
      Effect.addMsg (resolve_conversation_id env_c7.new_uuid (some "c7")) "assistant"
        insufficient_knowledge_response none false
        ∈ (rag_query env_c7 "What is X?" (some "c7") true true).2) :=
  rag_query_short_circuit env_c7 "What is X?" (some "c7") true true rfl

/-- Claim C6: a query arriving without a (truthy) conversation id makes
the chat endpoint create a new conversation in the store first; a
creation failure fails the whole request as a wrapped service error,
and on success the created id heads the effect list, every subsequent
store write addresses it, and any successful response carries it. -/
theorem chat_query_new_conversation (env : Env) (req : ChatRequest)
    (habs : is_absent req.conversation_id = true) :
    (∀ e, env.create_conv = Except.error e →
        chat_query env req = (Except.error ("Query processing failed: " ++ e), [])) ∧
    (∀ new_cid, env.create_conv = Except.ok new_cid → new_cid.isEmpty = false →
        (chat_query env req).2.head? = some (Effect.createConversation new_cid) ∧
        (∀ eff ∈ (chat_query env req).2, eff.conversation_of = new_cid) ∧
        (∀ resp, (chat_query env req).1 = Except.ok resp →
            resp.conversation_id = new_cid)) := by
  constructor
  · intro e he
    simp [chat_query, habs, he]
  · intro nc hok hne
    have hres : resolve_conversation_id env.new_uuid (some nc) = nc := by
      simp [resolve_conversation_id, hne]
    have hq : chat_query env req
        = (wrap_500 (rag_query env req.query (some nc) req.include_sources
              req.generate_diagram).1,
           Effect.createConversation nc ::
             (rag_query env req.query (some nc) req.include_sources
               req.generate_diagram).2) := by
      simp [chat_query, habs, hok]
    obtain ⟨heff, hresp⟩ := rag_query_cid_invariant env req.query (some nc)
      req.include_sources req.generate_diagram
    rw [hq]
    refine ⟨rfl, ?_, ?_⟩
    · intro eff hin
      rcases List.mem_cons.mp hin with rfl | hin2
      · rfl
      · rw [← hres]
        exact heff eff hin2
    · intro resp hresp2
      cases hr : (rag_query env req.query (some nc) req.include_sources
          req.generate_diagram).1 with
      | error e2 =>
        rw [hr] at hresp2
        simp [wrap_500] at hresp2
      | ok v =>
        rw [hr] at hresp2
        simp only [wrap_500, Except.ok.injEq] at hresp2
        rw [← hresp2, ← hres]
        exact hresp v hr

/-- Witness for C6 at a concrete environment and request. -/
theorem chat_query_new_conversation_witness :
    (∀ e, env_c6.create_conv = Except.error e →
        chat_query env_c6 req_c6 = (Except.error ("Query processing failed: " ++ e), [])) ∧
    (∀ new_cid, env_c6.create_conv = Except.ok new_cid → new_cid.isEmpty = false →
        (chat_query env_c6 req_c6).2.head? = some (Effect.createConversation new_cid) ∧
        (∀ eff ∈ (chat_query env_c6 req_c6).2, eff.conversation_of = new_cid) ∧
        (∀ resp, (chat_query env_c6 req_c6).1 = Except.ok resp →
            resp.conversation_id = new_cid)) :=
  chat_query_new_conversation env_c6 req_c6 (by decide)
